import Mathlib

/-!
Verification development for the wx-open-project credential and session-token
layer (src/app/models/__init__.py and src/app/constants.py).

Strings on the token path are embedded as lists of characters (Python 2 str is
a byte string; list-of-char is the shallow embedding used here).  Stateful
methods are embedded as explicit state-passing functions that also count the
persistence writes and the platform fetches they perform.
-/

namespace WxOpen

/-! ## Session-token layer (Admin.generate_token / Admin.query_by_token) -/

/-- Modelled from the spec: SymmetricTokenCodec (utils/aes_util.py is not part
of src/).  The spec requires a reversible symmetric cipher whose decryption
fails on ciphertext not produced by this codec; it is modelled as a tagging
injection, with decryption stripping the tag and failing on any input that
does not carry it. -/
def encrypt (p : List Char) : List Char :=
  'E' :: 'N' :: 'C' :: p

/-- Modelled from the spec: SymmetricTokenCodec decryption, the inverse of
encrypt; returns none on malformed ciphertext. -/
def decrypt (c : List Char) : Option (List Char) :=
  match c with
  | e :: n :: k :: rest => if e = 'E' ∧ n = 'N' ∧ k = 'C' then some rest else none
  | _ => none

/-- Python str.split with a single-character separator and no maxsplit:
splits at every occurrence, keeping empty pieces. -/
def pySplit (sep : Char) : List Char → List (List Char)
  | [] => [[]]
  | c :: cs =>
    match pySplit sep cs with
    | [] => [[]]
    | r :: rs => if c = sep then [] :: r :: rs else (c :: r) :: rs

/-- Decimal digit character for a value below ten (used by the Python
percent-s formatting of a nonnegative integer). -/
def digitChar : Nat → Char
  | 0 => '0'
  | 1 => '1'
  | 2 => '2'
  | 3 => '3'
  | 4 => '4'
  | 5 => '5'
  | 6 => '6'
  | 7 => '7'
  | 8 => '8'
  | 9 => '9'
  | _ => '*'

/-- Value of a decimal digit character, none for any other character
(the digit-parsing core of Python int() on a string); computed from the
character code, with 48 the code of the zero digit. -/
def digitVal? (c : Char) : Option Nat :=
  if 48 ≤ c.toNat ∧ c.toNat ≤ 57 then some (c.toNat - 48) else none

/-- Fuel-driven core of the decimal representation (structural recursion so
that concrete tokens evaluate inside the kernel). -/
def natReprGo : Nat → Nat → List Char
  | 0, _ => []
  | fuel + 1, n =>
    if n < 10 then [digitChar n]
    else natReprGo fuel (n / 10) ++ [digitChar (n % 10)]

/-- Decimal representation of a natural number, as produced by Python
percent-s formatting of a nonnegative int (no sign, no leading zeros). -/
def natRepr (n : Nat) : List Char :=
  natReprGo (n + 1) n

/-- Accumulating decimal parser over a character list. -/
def parseNatCore (acc : Nat) : List Char → Option Nat
  | [] => some acc
  | c :: cs =>
    match digitVal? c with
    | some d => parseNatCore (10 * acc + d) cs
    | none => none

/-- Python int() applied to a string of decimal digits: fails on the empty
string and on any non-digit character.  (Python also tolerates surrounding
whitespace and a sign; such inputs are unreachable from issued tokens and on
them the source rejects for the expiry comparison instead, with the same
observable outcome.) -/
def parseNat? (cs : List Char) : Option Nat :=
  match cs with
  | [] => none
  | _ => parseNatCore 0 cs

/-- ADMIN_TOKEN_TAG from src/app/constants.py. -/
def ADMIN_TOKEN_TAG : List Char := "admin".toList

/-- Admin.generate_token: encrypts the plaintext
tag:id:(now + 86400 * validDays), mirroring
encrypt(pcts(ADMIN_TOKEN_TAG, self.id, int(time.time()) + 86400 * days)).
The number of valid days is a parameter (the constant the source imports is
not defined in src/app/constants.py). -/
def generate_token (id : Nat) (now : Nat) (validDays : Nat) : List Char :=
  encrypt (ADMIN_TOKEN_TAG ++ (':' :: (natRepr id ++ (':' :: natRepr (now + 86400 * validDays)))))

/-- Admin.query_by_token over an abstract record store keyed by id
(BaseModel.query_by_id).  Mirrors the source line by line: decrypt, split on
colons into exactly three fields, check the tag, check strict expiry
int(expires) > time.time(), then look the id up; every failure path collapses
to none via the catch-all except clause. -/
def query_by_token {α : Type} (store : Nat → Option α) (now : Nat)
    (token : List Char) : Option α :=
  match decrypt token with
  | none => none
  | some pt =>
    match pySplit ':' pt with
    | [tag, idStr, expStr] =>
      if tag = ADMIN_TOKEN_TAG then
        match parseNat? expStr with
        | some exp =>
          if exp > now then
            match parseNat? idStr with
            | some i => store i
            | none => none
          else none
        | none => none
      else none
    | _ => none

/-! ### Helper lemmas for the token layer -/

theorem pySplit_ne_nil (sep : Char) (l : List Char) : pySplit sep l ≠ [] := by
  cases l with
  | nil => simp [pySplit]
  | cons c cs =>
    simp only [pySplit]
    split
    · simp
    · split <;> simp

theorem pySplit_no_sep {sep : Char} {a : List Char} (h : sep ∉ a) :
    pySplit sep a = [a] := by
  induction a with
  | nil => rfl
  | cons c cs ih =>
    have hc : c ≠ sep := fun e => h (by simp [e])
    have hcs : sep ∉ cs := fun m => h (List.mem_cons_of_mem _ m)
    simp [pySplit, ih hcs, hc]

theorem pySplit_append {sep : Char} {a : List Char} (h : sep ∉ a)
    (rest : List Char) :
    pySplit sep (a ++ (sep :: rest)) = a :: pySplit sep rest := by
  induction a with
  | nil =>
    rw [List.nil_append]
    simp only [pySplit]
    cases hr : pySplit sep rest with
    | nil => exact absurd hr (pySplit_ne_nil sep rest)
    | cons r rs => simp
  | cons c cs ih =>
    have hc : c ≠ sep := fun e => h (by simp [e])
    have hcs : sep ∉ cs := fun m => h (List.mem_cons_of_mem _ m)
    rw [List.cons_append]
    simp only [pySplit]
    rw [ih hcs]
    simp [hc]

theorem digitVal?_digitChar {d : Nat} (h : d < 10) :
    digitVal? (digitChar d) = some d := by
  interval_cases d <;> rfl

theorem digitChar_ne_colon {d : Nat} (h : d < 10) : digitChar d ≠ ':' := by
  interval_cases d <;> decide

theorem colon_not_mem_natReprGo (fuel n : Nat) : ':' ∉ natReprGo fuel n := by
  induction fuel generalizing n with
  | zero => simp [natReprGo]
  | succ fuel ih =>
    rw [natReprGo]
    split
    · next h =>
      intro hm
      have hm2 : ':' = digitChar n := by simpa using hm
      exact digitChar_ne_colon h hm2.symm
    · next h =>
      intro hm
      rcases List.mem_append.mp hm with hm | hm
      · exact ih (n / 10) hm
      · have hm2 : ':' = digitChar (n % 10) := by simpa using hm
        exact digitChar_ne_colon (Nat.mod_lt _ (by omega)) hm2.symm

theorem colon_not_mem_natRepr (n : Nat) : ':' ∉ natRepr n :=
  colon_not_mem_natReprGo (n + 1) n

theorem natRepr_ne_nil (n : Nat) : natRepr n ≠ [] := by
  rw [natRepr, natReprGo]
  split <;> simp

theorem parseNatCore_append (acc : Nat) (xs ys : List Char) :
    parseNatCore acc (xs ++ ys) =
      match parseNatCore acc xs with
      | some a => parseNatCore a ys
      | none => none := by
  induction xs generalizing acc with
  | nil => rfl
  | cons c cs ih =>
    simp only [List.cons_append, parseNatCore]
    cases digitVal? c with
    | none => rfl
    | some d => exact ih _

theorem parseNatCore_natReprGo {fuel n : Nat} (h : n < fuel) :
    parseNatCore 0 (natReprGo fuel n) = some n := by
  induction fuel generalizing n with
  | zero => omega
  | succ fuel ih =>
    rw [natReprGo]
    split
    · next h10 => simp [parseNatCore, digitVal?_digitChar h10]
    · next h10 =>
      have hdiv : n / 10 < fuel := by
        have h1 : n / 10 < n := Nat.div_lt_self (by omega) (by omega)
        omega
      rw [parseNatCore_append, ih hdiv]
      simp only [parseNatCore, digitVal?_digitChar (Nat.mod_lt n (by omega))]
      have hmod : 10 * (n / 10) + n % 10 = n := by omega
      rw [hmod]

theorem parseNat?_eq_core {cs : List Char} (h : cs ≠ []) :
    parseNat? cs = parseNatCore 0 cs := by
  cases cs with
  | nil => exact absurd rfl h
  | cons c cs => rfl

theorem parseNat?_natRepr (n : Nat) : parseNat? (natRepr n) = some n := by
  rw [parseNat?_eq_core (natRepr_ne_nil n)]
  exact parseNatCore_natReprGo (Nat.lt_succ_self n)

theorem decrypt_encrypt (p : List Char) : decrypt (encrypt p) = some p := by
  simp [encrypt, decrypt]

/-- The master round-trip lemma: validating an issued token resolves to the
encoded record lookup when the check time is before the embedded expiry, and
to none otherwise. -/
theorem query_by_token_generate {α : Type} (store : Nat → Option α)
    (id nowIssue validDays nowCheck : Nat) :
    query_by_token store nowCheck (generate_token id nowIssue validDays) =
      if nowIssue + 86400 * validDays > nowCheck then store id else none := by
  have hTag : ':' ∉ ADMIN_TOKEN_TAG := by decide
  unfold query_by_token generate_token
  rw [decrypt_encrypt]
  dsimp only
  rw [pySplit_append hTag, pySplit_append (colon_not_mem_natRepr id),
    pySplit_no_sep (colon_not_mem_natRepr _)]
  simp [parseNat?_natRepr]

/-! ### Claim theorems for the session-token layer -/

/-- Claim C1: validating a session token immediately after it is issued, with
the role tag used at issuance (the fixed ADMIN_TOKEN_TAG), succeeds and
resolves to the subject encoded in the token: query_by_token applied to
generate_token equals the store lookup of the encoded subject id whenever the
validation time is before the embedded expiry now + 86400 * validDays. -/
theorem c1_issue_validate_roundtrip {α : Type} (store : Nat → Option α)
    (id nowIssue validDays nowCheck : Nat)
    (h : nowCheck < nowIssue + 86400 * validDays) :
    query_by_token store nowCheck (generate_token id nowIssue validDays) =
      store id := by
  rw [query_by_token_generate, if_pos h]

/-- Witness for C1 at id 7, issued at time 0 for one day, validated at
time 0. -/
theorem c1_issue_validate_roundtrip_witness :
    query_by_token (fun i => if i = 7 then some 7 else none) 0
      (generate_token 7 0 1) = some 7 := by
  rw [c1_issue_validate_roundtrip (fun i => if i = 7 then some 7 else none)
    7 0 1 0 (by omega)]
  rfl

/-- Claim C2: session-token validation rejects (returns none instead of a
subject) when decryption fails, when the plaintext does not split into
exactly three colon-separated fields, when the decoded tag differs from the
expected ADMIN_TOKEN_TAG, and when now is at or past the embedded absolute
expiry. -/
theorem c2_validate_rejects {α : Type} (store : Nat → Option α) (now : Nat)
    (tok : List Char) :
    (decrypt tok = none → query_by_token store now tok = none) ∧
    (∀ pt, decrypt tok = some pt → (pySplit ':' pt).length ≠ 3 →
      query_by_token store now tok = none) ∧
    (∀ pt tag idStr expStr, decrypt tok = some pt →
      pySplit ':' pt = [tag, idStr, expStr] → tag ≠ ADMIN_TOKEN_TAG →
      query_by_token store now tok = none) ∧
    (∀ pt tag idStr expStr e, decrypt tok = some pt →
      pySplit ':' pt = [tag, idStr, expStr] → parseNat? expStr = some e →
      e ≤ now → query_by_token store now tok = none) := by
  refine ⟨?_, ?_, ?_, ?_⟩
  · intro h
    unfold query_by_token
    rw [h]
  · intro pt h hlen
    unfold query_by_token
    rw [h]
    dsimp only
    rcases hs : pySplit ':' pt with _ | ⟨a, _ | ⟨b, _ | ⟨c, _ | ⟨d, l⟩⟩⟩⟩
    · rfl
    · rfl
    · rfl
    · exact absurd (by rw [hs]; rfl) hlen
    · rfl
  · intro pt tag idStr expStr h hs htag
    unfold query_by_token
    rw [h]
    dsimp only
    rw [hs]
    dsimp only
    rw [if_neg htag]
  · intro pt tag idStr expStr e h hs hp he
    unfold query_by_token
    rw [h]
    dsimp only
    rw [hs]
    dsimp only
    by_cases ht : tag = ADMIN_TOKEN_TAG
    · rw [if_pos ht, hp]
      dsimp only
      rw [if_neg (by omega)]
    · rw [if_neg ht]

/-- Witness for C2: a malformed ciphertext, a two-field plaintext, a
wrong-tag token and an expired token are all rejected. -/
theorem c2_validate_rejects_witness :
    query_by_token (fun _ : Nat => some 0) 100 ['X'] = none ∧
    query_by_token (fun _ : Nat => some 0) 100 (encrypt "ab".toList) = none ∧
    query_by_token (fun _ : Nat => some 0) 100
      (encrypt "user:7:999".toList) = none ∧
    query_by_token (fun _ : Nat => some 0) 100 (generate_token 7 0 0) = none := by
  refine ⟨?_, ?_, ?_, ?_⟩
  · exact (c2_validate_rejects _ 100 ['X']).1 (by decide)
  · exact (c2_validate_rejects _ 100 (encrypt "ab".toList)).2.1
      "ab".toList (by decide) (by decide)
  · exact (c2_validate_rejects _ 100 (encrypt "user:7:999".toList)).2.2.1
      "user:7:999".toList "user".toList "7".toList "999".toList
      (by decide) (by decide) (by decide)
  · exact (c2_validate_rejects _ 100 (generate_token 7 0 0)).2.2.2
      "admin:7:0".toList "admin".toList "7".toList "0".toList 0
      (by decide) (by decide) (by decide) (by decide)

/-- Claim C9: session-token validation is total and signals failure by
absence: for every input it either returns none or returns a store lookup
(never anything exceptional), and a well-formed unexpired token with the
correct tag still yields none when no record with the embedded id exists. -/
theorem c9_validate_total_absence {α : Type} (store : Nat → Option α)
    (now : Nat) :
    (∀ tok, query_by_token store now tok = none ∨
      ∃ i, query_by_token store now tok = store i) ∧
    (∀ id nowIssue validDays, store id = none →
      query_by_token store now (generate_token id nowIssue validDays) = none) := by
  constructor
  · intro tok
    unfold query_by_token
    rcases decrypt tok with _ | pt
    · exact Or.inl rfl
    · dsimp only
      rcases pySplit ':' pt with _ | ⟨a, _ | ⟨b, _ | ⟨c, _ | ⟨d, l⟩⟩⟩⟩

      · exact Or.inl rfl
      · exact Or.inl rfl
      · exact Or.inl rfl
      · dsimp only
        by_cases ht : a = ADMIN_TOKEN_TAG
        · rw [if_pos ht]
          rcases parseNat? c with _ | e
          · exact Or.inl rfl
          · dsimp only
            by_cases hexp : e > now
            · rw [if_pos hexp]
              rcases parseNat? b with _ | i
              · exact Or.inl rfl
              · exact Or.inr ⟨i, rfl⟩
            · rw [if_neg hexp]
              exact Or.inl rfl
        · rw [if_neg ht]
          exact Or.inl rfl
      · exact Or.inl rfl
  · intro id nowIssue validDays habs
    rw [query_by_token_generate]
    split <;> simp [habs]

/-- Witness for C9 on an empty store. -/
theorem c9_validate_total_absence_witness :
    query_by_token (fun _ : Nat => (none : Option Nat)) 0
      (generate_token 7 0 1) = none :=
  (c9_validate_total_absence (fun _ : Nat => (none : Option Nat)) 0).2
    7 0 1 rfl

/-! ## WXAuthorizer record and its persistence-layer operations

The peewee record is embedded as a structure holding the domain fields plus
the update timestamp; primary key, uuid, create_time, show and weight are
never touched by the operations under study and are omitted.  Each operation
returns the resulting record together with the number of save() calls it
performed. -/

structure WXAuthorizer where
  authorized : Bool
  appid : String
  refresh_token : String
  func_info : String
  authorizer_info : Option String
  service_type : Option Int
  verify_type : Option Int
  nick_name : Option String
  signature : Option String
  head_img : Option String
  qrcode_url : Option String
  principal_name : Option String
  user_name : Option String
  alias_name : Option String  -- source field name: alias (reserved word in Lean)
  business_info : Option String
  mini_program_info : Option String
  update_time : Nat
  deriving DecidableEq, Repr

/-- Python truthiness of an optional string (None and the empty string are
falsy). -/
def truthyS : Option String → Bool
  | none => false
  | some s => s ≠ ""

/-- Python truthiness of an optional integer (None and 0 are falsy). -/
def truthyI : Option Int → Bool
  | none => false
  | some i => i ≠ 0

/-- Python whitespace as stripped by str.strip(). -/
def isPySpace (c : Char) : Bool :=
  c = ' ' ∨ c = '\t' ∨ c = '\n' ∨ c = '\r' ∨ c = '\x0b' ∨ c = '\x0c'

/-- Python str.strip(): removes leading and trailing whitespace. -/
def pyStrip (s : String) : String :=
  String.mk (((s.data.dropWhile isPySpace).reverse.dropWhile isPySpace).reverse)

/-- The module-level helper _nullable_strip: lambda s: s.strip() or None if s
else None. -/
def nullable_strip (s : Option String) : Option String :=
  match s with
  | none => none
  | some str =>
    if str = "" then none
    else if pyStrip str = "" then none else some (pyStrip str)

/-- WXAuthorizer.unauthorized: flips the authorized flag off and bumps the
update timestamp, but only when the flag was on. -/
def unauthorized (r : WXAuthorizer) (now : Nat) : WXAuthorizer × Nat :=
  if r.authorized then ({ r with authorized := false, update_time := now }, 1)
  else (r, 0)

/-- WXAuthorizer.update_refresh_token: stores the new token and bumps the
update timestamp only when it differs from the stored one. -/
def update_refresh_token (r : WXAuthorizer) (t : String) (now : Nat) :
    WXAuthorizer × Nat :=
  if r.refresh_token ≠ t then
    ({ r with refresh_token := t, update_time := now }, 1)
  else (r, 0)

/-- The authorizer-profile platform response, at the granularity the source
extracts it: optional type-info ids, optional descriptive strings, and the
repr-serialized blobs for the structured parts (the JSON transport itself is
an external collaborator). -/
structure AuthorizerInfoResp where
  service_type_id : Option Int
  verify_type_id : Option Int
  nick_name : Option String
  signature : Option String
  head_img : Option String
  qrcode_url : Option String
  principal_name : Option String
  user_name : Option String
  alias_name : Option String  -- source field name: alias (reserved word in Lean)
  business_info_repr : Option String
  mini_program_info_repr : Option String
  authorizer_info_repr : String
  func_info_repr : String
  deriving DecidableEq, Repr

/-- The field assignments performed by WXAuthorizer.update_authorizer_info on
a successful response, before save_if_modified: the authorized flag is forced
to true and the profile fields are overwritten from the response. -/
def applyProfile (r : WXAuthorizer) (p : AuthorizerInfoResp) : WXAuthorizer :=
  { r with
    authorized := true
    func_info := p.func_info_repr
    authorizer_info := some p.authorizer_info_repr
    service_type := p.service_type_id
    verify_type := p.verify_type_id
    nick_name := nullable_strip p.nick_name
    signature := nullable_strip p.signature
    head_img := nullable_strip p.head_img
    qrcode_url := nullable_strip p.qrcode_url
    principal_name := nullable_strip p.principal_name
    user_name := nullable_strip p.user_name
    alias_name := nullable_strip p.alias_name
    business_info := p.business_info_repr
    mini_program_info := p.mini_program_info_repr }

/-- BaseModel.save_if_modified: compares the mutated record field-by-field
against the stored copy and saves (bumping the update timestamp) only when
some field differs. -/
def save_if_modified (orig cur : WXAuthorizer) (now : Nat) :
    WXAuthorizer × Nat :=
  if cur ≠ orig then ({ cur with update_time := now }, 1) else (orig, 0)

/-- WXAuthorizer.update_authorizer_info: short-circuits when the component
token is absent or the response lacks authorizer_info/authorization_info,
otherwise applies the profile assignments and persists via save_if_modified. -/
def update_authorizer_info (r : WXAuthorizer) (component : Option String)
    (resp : Option AuthorizerInfoResp) (now : Nat) : WXAuthorizer × Nat :=
  if ¬ truthyS component then (r, 0)
  else
    match resp with
    | none => (r, 0)
    | some p => save_if_modified r (applyProfile r p) now

/-! ### Claim theorems for the persistence-layer operations -/

/-- Claim C10: revocation is idempotent and frame-preserving: with the flag
on, unauthorized flips it off, bumps the update timestamp, performs one save
and changes nothing else; with the flag already off it performs no save and
returns the record unchanged. -/
theorem c10_unauthorized_idempotent_frame (r : WXAuthorizer) (now : Nat) :
    (r.authorized = true →
      unauthorized r now = ({ r with authorized := false, update_time := now }, 1)) ∧
    (r.authorized = false → unauthorized r now = (r, 0)) := by
  constructor
  · intro h
    simp [unauthorized, h]
  · intro h
    simp [unauthorized, h]

/-- A concrete record used by the witnesses below. -/
def sampleRec : WXAuthorizer :=
  { authorized := true, appid := "a", refresh_token := "rt",
    func_info := "f", authorizer_info := none, service_type := none,
    verify_type := none, nick_name := none, signature := none,
    head_img := none, qrcode_url := none, principal_name := none,
    user_name := none, alias_name := none, business_info := none,
    mini_program_info := none, update_time := 3 }

/-- Witness for C10 on a concrete authorized and a concrete revoked record. -/
theorem c10_unauthorized_idempotent_frame_witness :
    (unauthorized sampleRec 9).2 = 1 ∧
    unauthorized { sampleRec with authorized := false } 9 =
      ({ sampleRec with authorized := false }, 0) := by
  constructor
  · rw [(c10_unauthorized_idempotent_frame sampleRec 9).1 rfl]
  · exact (c10_unauthorized_idempotent_frame
      { sampleRec with authorized := false } 9).2 rfl

/-- Claim C5: refresh_token rotation is idempotent: an identical incoming
token causes zero saves and leaves the record (its update timestamp
included) unchanged; a different incoming token causes exactly one save that
stores the new value. -/
theorem c5_refresh_token_rotation (r : WXAuthorizer) (t : String) (now : Nat) :
    (t = r.refresh_token → update_refresh_token r t now = (r, 0)) ∧
    (t ≠ r.refresh_token →
      update_refresh_token r t now =
        ({ r with refresh_token := t, update_time := now }, 1)) := by
  constructor
  · intro h
    simp [update_refresh_token, h]
  · intro h
    simp [update_refresh_token, Ne.symm h]

/-- Witness for C5 with an identical and with a rotated token. -/
theorem c5_refresh_token_rotation_witness :
    update_refresh_token sampleRec "rt" 9 = (sampleRec, 0) ∧
    (update_refresh_token sampleRec "rt2" 9).2 = 1 := by
  constructor
  · exact (c5_refresh_token_rotation sampleRec "rt" 9).1 rfl
  · rw [(c5_refresh_token_rotation sampleRec "rt2" 9).2 (by decide)]

/-- A record whose stored profile fields coincide with matchResp below. -/
def matchedRec : WXAuthorizer :=
  { sampleRec with authorizer_info := some "ai" }

/-- A profile response whose derived field values all equal the ones stored
in matchedRec. -/
def matchResp : AuthorizerInfoResp :=
  { service_type_id := none, verify_type_id := none, nick_name := none,
    signature := none, head_img := none, qrcode_url := none,
    principal_name := none, user_name := none, alias_name := none,
    business_info_repr := none, mini_program_info_repr := none,
    authorizer_info_repr := "ai", func_info_repr := "f" }

/-- The matched record with its authorization flag off (profile sync forces
the flag back on, so syncing this record writes even though every
response-derived field is unchanged). -/
def revokedMatchedRec : WXAuthorizer :=
  { matchedRec with authorized := false }

/-- Counterexample to claim C8 as stated: for revokedMatchedRec the profile
response yields field values all equal to the stored ones (each
response-derived field of the sync result equals the stored field), yet the
sync performs one persistence write, because update_authorizer_info also
forces the authorized flag to true. -/
theorem c8_profile_sync_counterexample :
    (applyProfile revokedMatchedRec matchResp).func_info =
        revokedMatchedRec.func_info ∧
    (applyProfile revokedMatchedRec matchResp).authorizer_info =
        revokedMatchedRec.authorizer_info ∧
    (applyProfile revokedMatchedRec matchResp).service_type =
        revokedMatchedRec.service_type ∧
    (applyProfile revokedMatchedRec matchResp).verify_type =
        revokedMatchedRec.verify_type ∧
    (applyProfile revokedMatchedRec matchResp).nick_name =
        revokedMatchedRec.nick_name ∧
    (applyProfile revokedMatchedRec matchResp).signature =
        revokedMatchedRec.signature ∧
    (applyProfile revokedMatchedRec matchResp).head_img =
        revokedMatchedRec.head_img ∧
    (applyProfile revokedMatchedRec matchResp).qrcode_url =
        revokedMatchedRec.qrcode_url ∧
    (applyProfile revokedMatchedRec matchResp).principal_name =
        revokedMatchedRec.principal_name ∧
    (applyProfile revokedMatchedRec matchResp).user_name =
        revokedMatchedRec.user_name ∧
    (applyProfile revokedMatchedRec matchResp).alias_name =
        revokedMatchedRec.alias_name ∧
    (applyProfile revokedMatchedRec matchResp).business_info =
        revokedMatchedRec.business_info ∧
    (applyProfile revokedMatchedRec matchResp).mini_program_info =
        revokedMatchedRec.mini_program_info ∧
    (update_authorizer_info revokedMatchedRec (some "ct")
        (some matchResp) 9).2 = 1 := by
  decide

/-- Claim C8 (amended): profile sync writes exactly when at least one
assigned field differs from the stored record, where the assigned fields are
the profile fields, the scope list and the authorization flag (forced to
true); when every assigned value equals the stored one there is no write and
the update timestamp is unchanged, otherwise one write persists the new
values and bumps the timestamp. -/
theorem c8_profile_sync_write_iff (r : WXAuthorizer) (ct : String)
    (p : AuthorizerInfoResp) (now : Nat) (hct : ct ≠ "") :
    (applyProfile r p = r →
      update_authorizer_info r (some ct) (some p) now = (r, 0)) ∧
    (applyProfile r p ≠ r →
      update_authorizer_info r (some ct) (some p) now =
        ({ applyProfile r p with update_time := now }, 1)) := by
  constructor
  · intro h
    simp [update_authorizer_info, truthyS, hct, save_if_modified, h]
  · intro h
    simp [update_authorizer_info, truthyS, hct, save_if_modified, h]

/-- Witness for the amended C8: a fully matching response on an authorized
record causes no write; a response with a changed nickname causes one
write. -/
theorem c8_profile_sync_write_iff_witness :
    update_authorizer_info matchedRec (some "ct") (some matchResp) 9 =
      (matchedRec, 0) ∧
    (update_authorizer_info matchedRec (some "ct")
      (some { matchResp with nick_name := some "n" }) 9).2 = 1 := by
  constructor
  · exact (c8_profile_sync_write_iff matchedRec "ct" matchResp 9
      (by decide)).1 (by decide)
  · rw [(c8_profile_sync_write_iff matchedRec "ct"
      { matchResp with nick_name := some "n" } 9 (by decide)).2 (by decide)]

/-! ## Credential broker (WXAuthorizer.get_access_token / get_jsapi_ticket)

The redis cache is embedded as an association list of (key, value, ttl) with
newest entry first (a set overwrites by shadowing); the platform transport is
an environment of pre-determined responses; the state also counts component
fetches, authorizer-token fetches, ticket fetches and persistence writes. -/

/-- The authorizer-token platform response
(authorizer_access_token, expires_in, authorizer_refresh_token). -/
structure TokenResp where
  authorizer_access_token : Option String
  expires_in : Option Int
  authorizer_refresh_token : Option String
  deriving DecidableEq, Repr

/-- The getticket platform response (ticket, expires_in). -/
structure TicketResp where
  ticket : Option String
  expires_in : Option Int
  deriving DecidableEq, Repr

/-- The environment of platform responses: the cached component token, the
component-endpoint response, the authorizer-token response and the
jsapi-ticket response. -/
structure Env where
  componentCached : Option String
  componentResp : Option String
  tokenResp : TokenResp
  jsapiResp : TicketResp
  deriving DecidableEq, Repr

/-- The broker state: redis entries, the tenant record, and counters for the
platform fetches at each level and the persistence writes. -/
structure St where
  cache : List (String × String × Int)
  authorizer : WXAuthorizer
  compFetches : Nat
  tokenFetches : Nat
  ticketFetches : Nat
  dbWrites : Nat
  deriving DecidableEq, Repr

/-- The redis key for a tenant access token:
wx_authorizer:(appid):access_token. -/
def accessTokenKey (r : WXAuthorizer) : String :=
  "wx_authorizer:" ++ r.appid ++ ":access_token"

/-- The redis key for a tenant jsapi ticket:
wx_authorizer:(appid):jsapi_ticket. -/
def jsapiTicketKey (r : WXAuthorizer) : String :=
  "wx_authorizer:" ++ r.appid ++ ":jsapi_ticket"

/-- redis GET: the newest entry for the key, if any. -/
def cacheGet (c : List (String × String × Int)) (k : String) : Option String :=
  (c.find? (fun e => e.1 = k)).map (fun e => e.2.1)

/-- redis SET key value EX ttl: shadows any older entry for the key. -/
def cacheSet (c : List (String × String × Int)) (k v : String) (ttl : Int) :
    List (String × String × Int) :=
  (k, v, ttl) :: c

/-- Modelled from the spec: get_component_access_token
(utils/weixin_util.py is not under src/).  Per spec section 4.4 step 1 it is
a process-wide credential with a tenant-independent cache key: a cached value
is returned directly, otherwise one component-endpoint fetch happens and may
fail (absent). -/
def get_component_access_token (env : Env) (st : St) : Option String × St :=
  match env.componentCached with
  | some t => (some t, st)
  | none => (env.componentResp, { st with compFetches := st.compFetches + 1 })

/-- WXAuthorizer.get_access_token: return the cached token when truthy; else
obtain the component token (absent short-circuits); else perform one
authorizer-token fetch; a response whose three required fields are not all
truthy yields none with nothing cached and nothing persisted; on success the
refresh token is rotated via update_refresh_token and the access token is
cached with ttl expires_in - 600. -/
def get_access_token (env : Env) (st : St) (now : Nat) : Option String × St :=
  let key := accessTokenKey st.authorizer
  let cached := cacheGet st.cache key
  if truthyS cached then (cached, st)
  else
    let p := get_component_access_token env st
    if ¬ truthyS p.1 then (none, p.2)
    else
      let st1 := { p.2 with tokenFetches := p.2.tokenFetches + 1 }
      match env.tokenResp.authorizer_access_token, env.tokenResp.expires_in,
          env.tokenResp.authorizer_refresh_token with
      | some at_, some e, some rt =>
        if at_ ≠ "" ∧ e ≠ 0 ∧ rt ≠ "" then
          let q := update_refresh_token st1.authorizer rt now
          (some at_,
            { st1 with
              authorizer := q.1
              dbWrites := st1.dbWrites + q.2
              cache := cacheSet st1.cache key at_ (e - 600) })
        else (none, st1)
      | _, _, _ => (none, st1)

/-- WXAuthorizer.get_jsapi_ticket: return the cached ticket when truthy; else
obtain the access token (absent short-circuits, with no ticket fetch); else
perform one getticket fetch; a response lacking a truthy ticket or expires_in
yields none with nothing cached; on success the ticket is cached with ttl
expires_in - 600. -/
def get_jsapi_ticket (env : Env) (st : St) (now : Nat) : Option String × St :=
  let key := jsapiTicketKey st.authorizer
  let cached := cacheGet st.cache key
  if truthyS cached then (cached, st)
  else
    let p := get_access_token env st now
    if ¬ truthyS p.1 then (none, p.2)
    else
      let st1 := { p.2 with ticketFetches := p.2.ticketFetches + 1 }
      match env.jsapiResp.ticket, env.jsapiResp.expires_in with
      | some tk, some e =>
        if tk ≠ "" ∧ e ≠ 0 then
          (some tk, { st1 with cache := cacheSet st1.cache key tk (e - 600) })
        else (none, st1)
      | _, _ => (none, st1)

/-! ### Helper lemmas for the broker -/

theorem truthyS_some {s : String} : truthyS (some s) = true ↔ s ≠ "" := by
  simp [truthyS]

theorem truthyI_some {i : Int} : truthyI (some i) = true ↔ i ≠ 0 := by
  simp [truthyI]

theorem cacheGet_set (c : List (String × String × Int)) (k v : String)
    (ttl : Int) : cacheGet (cacheSet c k v ttl) k = some v := by
  simp [cacheGet, cacheSet, List.find?]

theorem update_refresh_token_appid (r : WXAuthorizer) (t : String)
    (now : Nat) : (update_refresh_token r t now).1.appid = r.appid := by
  unfold update_refresh_token
  split <;> rfl

theorem get_component_frame (env : Env) (st : St) :
    (get_component_access_token env st).2.cache = st.cache ∧
    (get_component_access_token env st).2.authorizer = st.authorizer ∧
    (get_component_access_token env st).2.tokenFetches = st.tokenFetches ∧
    (get_component_access_token env st).2.ticketFetches = st.ticketFetches ∧
    (get_component_access_token env st).2.dbWrites = st.dbWrites := by
  unfold get_component_access_token
  cases env.componentCached <;> exact ⟨rfl, rfl, rfl, rfl, rfl⟩

theorem get_access_token_hit {env : Env} {st : St} {now : Nat} {v : String}
    (h : cacheGet st.cache (accessTokenKey st.authorizer) = some v)
    (hv : v ≠ "") : get_access_token env st now = (some v, st) := by
  simp only [get_access_token, h]
  simp [truthyS, hv]

theorem get_access_token_some_inv {env : Env} {st : St} {now : Nat}
    {v : String} {st' : St}
    (h : get_access_token env st now = (some v, st')) :
    v ≠ "" ∧ st'.authorizer.appid = st.authorizer.appid ∧
      cacheGet st'.cache (accessTokenKey st'.authorizer) = some v := by
  simp only [get_access_token] at h
  by_cases hc : truthyS (cacheGet st.cache (accessTokenKey st.authorizer)) = true
  · rw [if_pos hc] at h
    obtain ⟨h1, h2⟩ := Prod.mk.injEq .. ▸ h
    subst h2
    refine ⟨?_, rfl, h1⟩
    rw [h1] at hc
    exact truthyS_some.mp hc
  · rw [if_neg hc] at h
    by_cases hcomp : truthyS (get_component_access_token env st).1 = true
    · rw [if_neg (by simpa using hcomp)] at h
      rcases hat : env.tokenResp.authorizer_access_token with _ | at_ <;>
        rw [hat] at h
      · simp at h
      rcases he : env.tokenResp.expires_in with _ | e <;> rw [he] at h
      · simp at h
      rcases hrt : env.tokenResp.authorizer_refresh_token with _ | rt <;>
        rw [hrt] at h
      · simp at h
      dsimp only at h
      by_cases hok : at_ ≠ "" ∧ e ≠ 0 ∧ rt ≠ ""
      · rw [if_pos hok] at h
        obtain ⟨h1, h2⟩ := Prod.mk.injEq .. ▸ h
        obtain rfl : at_ = v := Option.some.injEq .. ▸ h1
        have happ : st'.authorizer.appid = st.authorizer.appid := by
          rw [← h2]
          dsimp only
          rw [update_refresh_token_appid]
          exact congrArg WXAuthorizer.appid (get_component_frame env st).2.1
        refine ⟨hok.1, happ, ?_⟩
        have hkey : accessTokenKey st'.authorizer = accessTokenKey st.authorizer := by
          unfold accessTokenKey
          rw [happ]
        rw [hkey, ← h2]
        dsimp only
        exact cacheGet_set ..
      · rw [if_neg hok] at h
        simp at h
    · rw [if_pos (by simpa using hcomp)] at h
      simp at h

theorem get_access_token_ticketFetches (env : Env) (st : St) (now : Nat) :
    (get_access_token env st now).2.ticketFetches = st.ticketFetches := by
  have hcomp := (get_component_frame env st).2.2.2.1
  simp only [get_access_token]
  split
  · rfl
  · split
    · simpa using hcomp
    · split <;> first | (split <;> simp [hcomp]) | simp [hcomp]

theorem get_access_token_miss_nocomp {env : Env} {st : St} {now : Nat}
    (hm : truthyS (cacheGet st.cache (accessTokenKey st.authorizer)) = false)
    (hc : truthyS (get_component_access_token env st).1 = false) :
    get_access_token env st now = (none, (get_component_access_token env st).2) := by
  simp only [get_access_token]
  simp [hm, hc]

theorem get_jsapi_ticket_miss_noaccess {env : Env} {st : St} {now : Nat}
    (hm : truthyS (cacheGet st.cache (jsapiTicketKey st.authorizer)) = false)
    (ha : truthyS (get_access_token env st now).1 = false) :
    get_jsapi_ticket env st now = (none, (get_access_token env st now).2) := by
  simp only [get_jsapi_ticket]
  simp [hm, ha]

/-! ### Claim theorems for the broker -/

/-- Claim C7: when the cache holds an access token for the tenant key, a call
returns the cached value with the state fully unchanged (zero component
fetches, zero authorizer-token fetches, zero persistence writes); moreover
after any call that returned a token, an immediate second call returns the
same token and changes nothing. -/
theorem c7_cache_hit_no_refetch (env : Env) (st : St) (now : Nat) :
    (∀ v, cacheGet st.cache (accessTokenKey st.authorizer) = some v →
      v ≠ "" → get_access_token env st now = (some v, st)) ∧
    (∀ v st', get_access_token env st now = (some v, st') →
      get_access_token env st' now = (some v, st')) := by
  constructor
  · intro v h hv
    exact get_access_token_hit h hv
  · intro v st' h
    obtain ⟨hv, _, hcache⟩ := get_access_token_some_inv h
    exact get_access_token_hit hcache hv

/-- Claim C6: every step of the chain short-circuits to absent with no side
effect on the listed resources: (a) an access-token miss with an absent
component token yields none, caching nothing, writing nothing and performing
no authorizer-token fetch; (b) an access-token miss with any required
response field missing or falsy yields none, caching nothing and writing
nothing; (c) a jsapi miss whose access-token chain yields absent returns
none without any ticket fetch; (d) a jsapi miss whose ticket response lacks a
truthy ticket or expires_in returns none caching nothing beyond what the
access-token sub-call cached. -/
theorem c6_chain_short_circuit (env : Env) (st : St) (now : Nat) :
    (truthyS (cacheGet st.cache (accessTokenKey st.authorizer)) = false →
     truthyS (get_component_access_token env st).1 = false →
      (get_access_token env st now).1 = none ∧
      (get_access_token env st now).2.cache = st.cache ∧
      (get_access_token env st now).2.dbWrites = st.dbWrites ∧
      (get_access_token env st now).2.tokenFetches = st.tokenFetches ∧
      (get_access_token env st now).2.authorizer = st.authorizer) ∧
    (truthyS (cacheGet st.cache (accessTokenKey st.authorizer)) = false →
     ¬ (truthyS env.tokenResp.authorizer_access_token = true ∧
        truthyI env.tokenResp.expires_in = true ∧
        truthyS env.tokenResp.authorizer_refresh_token = true) →
      (get_access_token env st now).1 = none ∧
      (get_access_token env st now).2.cache = st.cache ∧
      (get_access_token env st now).2.dbWrites = st.dbWrites ∧
      (get_access_token env st now).2.authorizer = st.authorizer) ∧
    (truthyS (cacheGet st.cache (jsapiTicketKey st.authorizer)) = false →
     truthyS (get_access_token env st now).1 = false →
      (get_jsapi_ticket env st now).1 = none ∧
      (get_jsapi_ticket env st now).2.ticketFetches = st.ticketFetches) ∧
    (truthyS (cacheGet st.cache (jsapiTicketKey st.authorizer)) = false →
     ¬ (truthyS env.jsapiResp.ticket = true ∧
        truthyI env.jsapiResp.expires_in = true) →
      (get_jsapi_ticket env st now).1 = none ∧
      (get_jsapi_ticket env st now).2.cache =
        (get_access_token env st now).2.cache) := by
  obtain ⟨hf1, hf2, hf3, hf4, hf5⟩ := get_component_frame env st
  refine ⟨?_, ?_, ?_, ?_⟩
  · intro hm hc
    rw [get_access_token_miss_nocomp hm hc]
    exact ⟨rfl, hf1, hf5, hf3, hf2⟩
  · intro hm hbad
    by_cases hc : truthyS (get_component_access_token env st).1 = true
    · simp only [get_access_token]
      simp only [hm, Bool.false_eq_true, if_false]
      rw [if_neg (by simpa using hc)]
      rcases hat : env.tokenResp.authorizer_access_token with _ | at_
      · exact ⟨rfl, hf1, hf5, hf2⟩
      rcases he : env.tokenResp.expires_in with _ | e
      · exact ⟨rfl, hf1, hf5, hf2⟩
      rcases hrt : env.tokenResp.authorizer_refresh_token with _ | rt
      · exact ⟨rfl, hf1, hf5, hf2⟩
      dsimp only
      rw [if_neg (fun hok => hbad
        ⟨hat ▸ truthyS_some.mpr hok.1, he ▸ truthyI_some.mpr hok.2.1,
          hrt ▸ truthyS_some.mpr hok.2.2⟩)]
      exact ⟨rfl, hf1, hf5, hf2⟩
    · have hc' : truthyS (get_component_access_token env st).1 = false := by
        simpa using hc
      rw [get_access_token_miss_nocomp hm hc']
      exact ⟨rfl, hf1, hf5, hf2⟩
  · intro hm ha
    rw [get_jsapi_ticket_miss_noaccess hm ha]
    exact ⟨rfl, get_access_token_ticketFetches env st now⟩
  · intro hm hbad
    by_cases ha : truthyS (get_access_token env st now).1 = true
    · simp only [get_jsapi_ticket]
      simp only [hm, Bool.false_eq_true, if_false]
      rw [if_neg (by simpa using ha)]
      rcases htk : env.jsapiResp.ticket with _ | tk
      · exact ⟨rfl, rfl⟩
      rcases he : env.jsapiResp.expires_in with _ | e
      · exact ⟨rfl, rfl⟩
      dsimp only
      rw [if_neg (fun hok => hbad
        ⟨htk ▸ truthyS_some.mpr hok.1, he ▸ truthyI_some.mpr hok.2⟩)]
      exact ⟨rfl, rfl⟩
    · have ha' : truthyS (get_access_token env st now).1 = false := by
        simpa using ha
      rw [get_jsapi_ticket_miss_noaccess hm ha']
      exact ⟨rfl, rfl⟩

/-- Claim C3 (amended): every successful fetch caches the credential with
ttl exactly expires_in - 600 and no floor (the value is negative whenever
expires_in < 600); in particular expires_in = 3600 stores ttl 3000.  Stated
for the access token and for the jsapi ticket. -/
theorem c3_refresh_ahead_ttl (env : Env) (st : St) (now : Nat) :
    (∀ at_ e rt,
      truthyS (cacheGet st.cache (accessTokenKey st.authorizer)) = false →
      truthyS (get_component_access_token env st).1 = true →
      env.tokenResp = ⟨some at_, some e, some rt⟩ →
      at_ ≠ "" → e ≠ 0 → rt ≠ "" →
      (get_access_token env st now).2.cache.head? =
        some (accessTokenKey st.authorizer, at_, e - 600) ∧
      (e = 3600 →
        (get_access_token env st now).2.cache.head? =
          some (accessTokenKey st.authorizer, at_, 3000))) ∧
    (∀ tk e,
      truthyS (cacheGet st.cache (jsapiTicketKey st.authorizer)) = false →
      truthyS (get_access_token env st now).1 = true →
      env.jsapiResp = ⟨some tk, some e⟩ →
      tk ≠ "" → e ≠ 0 →
      (get_jsapi_ticket env st now).2.cache.head? =
        some (jsapiTicketKey st.authorizer, tk, e - 600) ∧
      (e = 3600 →
        (get_jsapi_ticket env st now).2.cache.head? =
          some (jsapiTicketKey st.authorizer, tk, 3000))) := by
  constructor
  · intro at_ e rt hm hc hresp hat he hrt
    have hmain : (get_access_token env st now).2.cache.head? =
        some (accessTokenKey st.authorizer, at_, e - 600) := by
      simp only [get_access_token]
      simp only [hm, Bool.false_eq_true, if_false]
      rw [if_neg (by simpa using hc), hresp]
      dsimp only
      rw [if_pos ⟨hat, he, hrt⟩]
      rfl
    refine ⟨hmain, fun he36 => ?_⟩
    rw [hmain, he36]
    norm_num
  · intro tk e hm ha hresp htk he
    have hmain : (get_jsapi_ticket env st now).2.cache.head? =
        some (jsapiTicketKey st.authorizer, tk, e - 600) := by
      simp only [get_jsapi_ticket]
      simp only [hm, Bool.false_eq_true, if_false]
      rw [if_neg (by simpa using ha), hresp]
      dsimp only
      rw [if_pos ⟨htk, he⟩]
      rfl
    refine ⟨hmain, fun he36 => ?_⟩
    rw [hmain, he36]
    norm_num

/-! ### Concrete environments and witnesses for the broker claims -/

/-- A broker state with an empty cache. -/
def emptySt : St :=
  { cache := [], authorizer := sampleRec, compFetches := 0, tokenFetches := 0,
    ticketFetches := 0, dbWrites := 0 }

/-- A broker state whose cache holds an access token for the tenant. -/
def cachedSt : St :=
  { cache := [(accessTokenKey sampleRec, "AT", 3000)], authorizer := sampleRec,
    compFetches := 0, tokenFetches := 0, ticketFetches := 0, dbWrites := 0 }

/-- An environment where the component token is unavailable. -/
def envNoComp : Env :=
  { componentCached := none, componentResp := none,
    tokenResp := { authorizer_access_token := none, expires_in := none,
                   authorizer_refresh_token := none },
    jsapiResp := { ticket := none, expires_in := none } }

/-- An environment where the token response lacks expires_in. -/
def envNoExpires : Env :=
  { componentCached := some "CT", componentResp := none,
    tokenResp := { authorizer_access_token := some "AT", expires_in := none,
                   authorizer_refresh_token := some "rt" },
    jsapiResp := { ticket := none, expires_in := none } }

/-- An environment with a fully successful token fetch (expires_in = 3600)
whose jsapi response lacks the ticket. -/
def envOkToken : Env :=
  { componentCached := some "CT", componentResp := none,
    tokenResp := { authorizer_access_token := some "AT", expires_in := some 3600,
                   authorizer_refresh_token := some "rt" },
    jsapiResp := { ticket := none, expires_in := some 7200 } }

/-- An environment with a successful jsapi fetch (expires_in = 3600). -/
def envOkJsapi : Env :=
  { componentCached := some "CT", componentResp := none,
    tokenResp := { authorizer_access_token := some "AT", expires_in := some 3600,
                   authorizer_refresh_token := some "rt" },
    jsapiResp := { ticket := some "TK", expires_in := some 3600 } }

/-- An environment whose token fetch succeeds with expires_in = 1, below the
600-second refresh-ahead margin. -/
def envShortExpiry : Env :=
  { componentCached := some "CT", componentResp := none,
    tokenResp := { authorizer_access_token := some "AT", expires_in := some 1,
                   authorizer_refresh_token := some "rt" },
    jsapiResp := { ticket := some "TK", expires_in := some 7200 } }

/-- Witness for C7: a cache hit returns the cached token unchanged, and the
state after a successful call absorbs an immediate second call. -/
theorem c7_cache_hit_no_refetch_witness :
    get_access_token envNoComp cachedSt 0 = (some "AT", cachedSt) ∧
    get_access_token envOkToken cachedSt 0 = (some "AT", cachedSt) := by
  constructor
  · exact (c7_cache_hit_no_refetch envNoComp cachedSt 0).1 "AT"
      (by decide) (by decide)
  · exact (c7_cache_hit_no_refetch envOkToken cachedSt 0).2 "AT" cachedSt
      ((c7_cache_hit_no_refetch envOkToken cachedSt 0).1 "AT"
        (by decide) (by decide))

/-- Witness for C6 at concrete environments: absent component token, missing
expires_in, failed access chain under a jsapi request, and missing jsapi
ticket. -/
theorem c6_chain_short_circuit_witness :
    ((get_access_token envNoComp emptySt 0).1 = none ∧
      (get_access_token envNoComp emptySt 0).2.cache = emptySt.cache ∧
      (get_access_token envNoComp emptySt 0).2.dbWrites = emptySt.dbWrites ∧
      (get_access_token envNoComp emptySt 0).2.tokenFetches =
        emptySt.tokenFetches ∧
      (get_access_token envNoComp emptySt 0).2.authorizer =
        emptySt.authorizer) ∧
    ((get_access_token envNoExpires emptySt 0).1 = none ∧
      (get_access_token envNoExpires emptySt 0).2.cache = emptySt.cache ∧
      (get_access_token envNoExpires emptySt 0).2.dbWrites =
        emptySt.dbWrites ∧
      (get_access_token envNoExpires emptySt 0).2.authorizer =
        emptySt.authorizer) ∧
    ((get_jsapi_ticket envNoComp emptySt 0).1 = none ∧
      (get_jsapi_ticket envNoComp emptySt 0).2.ticketFetches =
        emptySt.ticketFetches) ∧
    ((get_jsapi_ticket envOkToken emptySt 0).1 = none ∧
      (get_jsapi_ticket envOkToken emptySt 0).2.cache =
        (get_access_token envOkToken emptySt 0).2.cache) := by
  refine ⟨?_, ?_, ?_, ?_⟩
  · exact (c6_chain_short_circuit envNoComp emptySt 0).1 (by decide) (by decide)
  · exact (c6_chain_short_circuit envNoExpires emptySt 0).2.1 (by decide)
      (by decide)
  · exact (c6_chain_short_circuit envNoComp emptySt 0).2.2.1 (by decide)
      (by decide)
  · exact (c6_chain_short_circuit envOkToken emptySt 0).2.2.2 (by decide)
      (by decide)

/-- Counterexample to claim C3 as stated: with platform-reported
expires_in = 1 the broker stores the credential with ttl 1 - 600 = -599,
which is negative, not the claimed floor at 0. -/
theorem c3_refresh_ahead_ttl_counterexample :
    (get_access_token envShortExpiry emptySt 0).2.cache.head? =
      some (accessTokenKey sampleRec, "AT", -599) ∧
    (-599 : Int) < 0 ∧ (-599 : Int) ≠ max (1 - 600) 0 := by
  decide

/-- Witness for the amended C3 at expires_in = 3600: the stored ttl is 3000
for the access token and for the jsapi ticket. -/
theorem c3_refresh_ahead_ttl_witness :
    (get_access_token envOkToken emptySt 0).2.cache.head? =
      some (accessTokenKey emptySt.authorizer, "AT", 3000) ∧
    (get_jsapi_ticket envOkJsapi cachedSt 0).2.cache.head? =
      some (jsapiTicketKey cachedSt.authorizer, "TK", 3000) := by
  constructor
  · exact ((c3_refresh_ahead_ttl envOkToken emptySt 0).1 "AT" 3600 "rt"
      (by decide) (by decide) (by decide) (by decide) (by decide)
      (by decide)).2 rfl
  · exact ((c3_refresh_ahead_ttl envOkJsapi cachedSt 0).2 "TK" 3600
      (by decide) (by decide) (by decide) (by decide) (by decide)).2 rfl

/-! ## SigningService (WXAuthorizer.generate_card_sign) -/

/-- WXAuthorizer.generate_card_sign, with the card api ticket already fetched
(the fetch guard is covered by the broker embedding) and the SHA-1 digest of
Python hashlib — an external library — passed as an abstract digest function:
collect the parameter values (not the keys), append the ticket, sort, join
with no separator, digest.  Python list.sort on byte strings is the
lexicographic order, embedded as the Lean String order. -/
def generate_card_sign (sha1 : String → String)
    (data : List (String × String)) (ticket : String) : String :=
  sha1 (String.join (List.insertionSort (fun a b => a ≤ b)
    (data.map Prod.snd ++ [ticket])))

/-- Claim C4: the signature computation is deterministic and independent of
parameter key names: two parameter maps whose multisets of values coincide
produce the identical signature, for every digest function and secret
ticket; and the signature is exactly the digest of the no-separator
concatenation of the values-plus-ticket sequence sorted lexicographically. -/
theorem c4_sign_key_independent (sha1 : String → String)
    (d1 d2 : List (String × String)) (ticket : String)
    (h : (d1.map Prod.snd).Perm (d2.map Prod.snd)) :
    generate_card_sign sha1 d1 ticket = generate_card_sign sha1 d2 ticket ∧
    generate_card_sign sha1 d1 ticket =
      sha1 (String.join (List.insertionSort (fun a b => a ≤ b)
        (d1.map Prod.snd ++ [ticket]))) := by
  refine ⟨?_, rfl⟩
  unfold generate_card_sign
  have hp : (List.insertionSort (fun a b => a ≤ b)
      (d1.map Prod.snd ++ [ticket])).Perm
      (List.insertionSort (fun a b => a ≤ b) (d2.map Prod.snd ++ [ticket])) :=
    ((List.perm_insertionSort _ _).trans (h.append_right [ticket])).trans
      (List.perm_insertionSort _ _).symm
  rw [List.eq_of_perm_of_sorted hp (List.sorted_insertionSort _ _)
    (List.sorted_insertionSort _ _)]

/-- Witness for C4: two maps with different keys but the same value multiset
sign identically. -/
theorem c4_sign_key_independent_witness :
    generate_card_sign (fun s => s) [("k1", "x"), ("k2", "y")] "t" =
      generate_card_sign (fun s => s) [("a", "y"), ("b", "x")] "t" :=
  (c4_sign_key_independent (fun s => s) [("k1", "x"), ("k2", "y")]
    [("a", "y"), ("b", "x")] "t" (by decide)).1

end WxOpen
